import Mathlib

/-
Verification of the input-assistance and conversation-state engine of the
embeddable chat widget (static/chatbot.js).  The definitions below are a
shallow embedding of the JavaScript source: strings are Lean Strings
(operations are implemented over the underlying character lists so that they
evaluate in the kernel), the mutable widget state is an explicit record, and
asynchronous callbacks (timers, network completions) are modelled as explicit
operations on that record, with network results supplied as oracle inputs.
-/

namespace Chatbot

/-! ## String helpers mirroring the JavaScript string primitives -/

/-- Mirrors the JavaScript substring test needle-in-hay (String.prototype.includes)
on character lists. -/
def listContainsSub (needle : List Char) : List Char → Bool
  | [] => needle.isPrefixOf ([] : List Char)
  | c :: cs => needle.isPrefixOf (c :: cs) || listContainsSub needle cs

/-- JavaScript s.includes(needle). -/
def strContains (hay needle : String) : Bool :=
  listContainsSub needle.data hay.data

/-- JavaScript s.toLowerCase() (ASCII-faithful). -/
def jsToLower (s : String) : String :=
  ⟨s.data.map Char.toLower⟩

/-- JavaScript s.trim(): strip leading and trailing whitespace. -/
def jsTrim (s : String) : String :=
  ⟨((s.data.dropWhile Char.isWhitespace).reverse.dropWhile Char.isWhitespace).reverse⟩

/-- JavaScript s.startsWith(p). -/
def strStartsWith (s p : String) : Bool :=
  p.data.isPrefixOf s.data

/-- Splits a character list at every character satisfying p, keeping empty
pieces, like JavaScript String.prototype.split with a single-character
separator. -/
def splitCharsAux (p : Char → Bool) : List Char → List Char → List (List Char)
  | [], acc => [acc.reverse]
  | c :: cs, acc =>
      if p c then acc.reverse :: splitCharsAux p cs []
      else splitCharsAux p cs (c :: acc)

/-- JavaScript s.split(sep) for a one-character separator (keeps empty pieces). -/
def splitOnChar (sep : Char) (s : String) : List String :=
  (splitCharsAux (fun c => c == sep) s.data []).map (fun l => (⟨l⟩ : String))

/-- JavaScript s.split(whitespace regex): whitespace-separated tokens with empty
pieces dropped.  On a trimmed non-empty string this agrees with the regex
split used in the source. -/
def splitWs (s : String) : List String :=
  ((splitCharsAux Char.isWhitespace s.data []).map (fun l => (⟨l⟩ : String))).filter
    (fun w => w ≠ "")

/-! ## Suggestion dedup / reduction policy -/

/-- Spread of a JavaScript Set built from a list: duplicates removed, first
occurrence kept, order preserved.  The accumulator holds the strings already
seen. -/
def dedupFrom (seen : List String) : List String → List String
  | [] => []
  | x :: xs =>
      if seen.contains x then dedupFrom seen xs
      else x :: dedupFrom (x :: seen) xs

/-- Mirrors the idiom spread-of-new-Set(suggestions) from the source. -/
def jsSetDedup (l : List String) : List String :=
  dedupFrom [] l

/-- Reduction policy of showSuggestions (chatbot.js lines 2814-2825): dedup,
prefer suggestions not yet in usedSuggestions, limit to 3, and backfill from
used ones only when some used candidate exists. -/
def filterSuggestions (used : List String) (suggestions : List String) : List String :=
  let uniqueSuggestions := jsSetDedup suggestions
  let unusedSuggestions := uniqueSuggestions.filter (fun s => !(used.contains s))
  let finalSuggestions := unusedSuggestions.take 3
  if finalSuggestions.length < 3 ∧ uniqueSuggestions.length > unusedSuggestions.length then
    finalSuggestions ++
      (uniqueSuggestions.filter (fun s => used.contains s)).take (3 - finalSuggestions.length)
  else finalSuggestions

/-- Reduction used in loadGreeting (lines 1592-1599) and in the query-response
handler (lines 2158-2166): same as filterSuggestions except that the backfill
branch is guarded only by the length test. -/
def limitSuggestions (used : List String) (suggestions : List String) : List String :=
  let uniqueSuggestions := jsSetDedup suggestions
  let unusedSuggestions := uniqueSuggestions.filter (fun s => !(used.contains s))
  let limited := unusedSuggestions.take 3
  if limited.length < 3 then
    limited ++
      (uniqueSuggestions.filter (fun s => used.contains s)).take (3 - limited.length)
  else limited

/-! ## Messages and conversation data -/

inductive Role where
  | user
  | assistant
  deriving Repr, DecidableEq

structure Msg where
  role : Role
  text : String
  deriving Repr, DecidableEq

/-! ## Help-surface coordinator state

One record holds the widget state touched by the two help surfaces: the
autocomplete dropdown (visibility, items, highlight index, pending debounce
timer) and the suggestion-chip surface (visibility, rendered chips, pending
reveal timer), together with the used-suggestion memory, the input value and
the send log.  Timer handles are modelled as booleans (armed / not armed):
scheduling cancels any previous handle of the same name in the source, so at
most one is pending per name. -/

structure CoordState where
  autoVisible : Bool
  autocompleteItems : List String
  currentAutocompleteIndex : Int
  autocompleteTimeout : Bool
  sugVisible : Bool
  chips : List String
  suggestionsShown : Bool
  suggestionsTimeout : Bool
  preventSuggestions : Bool
  pendingPreventReset : Bool
  usedSuggestions : List String
  inputValue : String
  focused : Bool
  sentQueries : List String
  deriving Repr, DecidableEq

/-- Widget state right after construction (constructor of ChatbotWidget). -/
def initCoordState : CoordState :=
  { autoVisible := false
    autocompleteItems := []
    currentAutocompleteIndex := -1
    autocompleteTimeout := false
    sugVisible := false
    chips := []
    suggestionsShown := false
    suggestionsTimeout := false
    preventSuggestions := false
    pendingPreventReset := false
    usedSuggestions := []
    inputValue := ""
    focused := false
    sentQueries := [] }

/-- hideAutocomplete (lines 1913-1936): drop the show class, reset the
highlight index, cancel the pending autocomplete timer; when the input is
empty a deferred 100 ms reset of preventSuggestions is scheduled (modelled by
the pendingPreventReset flag, discharged by preventResetFireOp). -/
def hideAutocompleteOp (st : CoordState) : CoordState :=
  let st1 := { st with autoVisible := false
                       currentAutocompleteIndex := -1
                       autocompleteTimeout := false }
  if (jsTrim st.inputValue).length = 0 then { st1 with pendingPreventReset := true }
  else st1

/-- hideSuggestions (lines 2864-2886): cancel the pending suggestions timer,
hide the container, remove every chip. -/
def hideSuggestionsOp (st : CoordState) : CoordState :=
  { st with suggestionsTimeout := false
            sugVisible := false
            chips := []
            suggestionsShown := false }

/-- showAutocomplete (lines 1788-1879): tear down the chip surface first
(hideSuggestions, explicit timer clear, preventSuggestions set), then store
the items, reset the highlight index and display the dropdown.  The source
sets the dropdown visible unconditionally after the teardown. -/
def showAutocompleteOp (st : CoordState) (suggestions : List String) : CoordState :=
  let st1 := hideSuggestionsOp st
  let st2 := { st1 with suggestionsTimeout := false, preventSuggestions := true }
  { st2 with autocompleteItems := suggestions
             currentAutocompleteIndex := -1
             autoVisible := true }

/-- showSuggestions (lines 2739-2862): tear down the autocomplete first
(hideAutocomplete, explicit timer clear, preventSuggestions reset), remove all
existing chips, then either hide the surface (empty input list) or render the
filterSuggestions reduction of the candidates and display the surface. -/
def showSuggestionsOp (st : CoordState) (suggestions : List String) : CoordState :=
  let st1 := hideAutocompleteOp st
  let st2 := { st1 with autocompleteTimeout := false, preventSuggestions := false }
  let st3 := { st2 with chips := [], sugVisible := false }
  if suggestions.isEmpty then { st3 with suggestionsShown := false }
  else
    let finalSuggestions := filterSuggestions st.usedSuggestions suggestions
    { st3 with chips := finalSuggestions, sugVisible := true, suggestionsShown := true }

/-- Hard-coded candidate list of showSuggestionsIfAvailable (lines 1945-1951). -/
def defaultClearedSuggestions : List String :=
  [ "What are all the column names in this file?"
  , "How many consignments are there in total?"
  , "What is the total transportation cost?"
  , "What are all the source locations?"
  , "What products are being shipped?" ]

/-- showSuggestionsIfAvailable (lines 1938-1962): only acts when the input is
empty; shows the first 3 unused defaults when any default is unused, otherwise
the first 3 defaults. -/
def showSuggestionsIfAvailableOp (st : CoordState) : CoordState :=
  if 0 < (jsTrim st.inputValue).length then st
  else
    let unusedSuggestions :=
      defaultClearedSuggestions.filter (fun s => !(st.usedSuggestions.contains s))
    let suggestionsToShow :=
      if 0 < unusedSuggestions.length then unusedSuggestions.take 3
      else defaultClearedSuggestions.take 3
    if 0 < suggestionsToShow.length then showSuggestionsOp st suggestionsToShow else st

/-- Handler of the input event (lines 1008-1069): record the new value, cancel
both timers; a non-blank value hides the chips synchronously, blocks them and
arms the 150 ms autocomplete timer; a blank value hides the autocomplete,
unblocks chips and arms the 200 ms reveal timer. -/
def inputEventOp (st : CoordState) (value : String) : CoordState :=
  let st0 := { st with inputValue := value
                       autocompleteTimeout := false
                       suggestionsTimeout := false }
  if 1 ≤ (jsTrim value).length then
    let st1 := hideSuggestionsOp st0
    { st1 with preventSuggestions := true, autocompleteTimeout := true }
  else
    let st1 := hideAutocompleteOp st0
    { st1 with preventSuggestions := false, suggestionsTimeout := true }

/-- setInputValue (lines 430-441) assigns the input value and dispatches a
synchronous input event, so it behaves exactly like the input handler. -/
def setInputValueOp (st : CoordState) (value : String) : CoordState :=
  inputEventOp st value

/-- selectAutocompleteItem (lines 1990-1999): on a valid index, put the item
text into the input, hide the autocomplete and refocus the input.  The used
suggestion memory is not touched here. -/
def selectAutocompleteItemOp (st : CoordState) (index : Int) : CoordState :=
  if 0 ≤ index ∧ index < st.autocompleteItems.length then
    let st1 := setInputValueOp st (st.autocompleteItems.getD index.toNat "")
    let st2 := hideAutocompleteOp st1
    { st2 with focused := true }
  else st

/-- Delegated chip-click handler (lines 1121-1137): record the chip text in
usedSuggestions (once), put it into the input, refocus and hide the chips. -/
def chipClickOp (st : CoordState) (suggestion : String) : CoordState :=
  let used :=
    if st.usedSuggestions.contains suggestion then st.usedSuggestions
    else st.usedSuggestions ++ [suggestion]
  let st1 := setInputValueOp { st with usedSuggestions := used } suggestion
  let st2 := { st1 with focused := true }
  hideSuggestionsOp st2

/-- Advisory message of sendMessage on a blank input (line 2037). -/
def typePromptMessage : String :=
  "Please type a question before sending. You can also click on suggested questions below!"

/-- Coordinator-visible part of sendMessage / sendMessageWithQuery (lines
2002-2077): a blank input only refocuses; otherwise both surfaces are torn
down, the input is cleared (without an input event), focus returns and the
query is sent. -/
def sendMessageCoord (st : CoordState) : CoordState :=
  let query := jsTrim st.inputValue
  if query = "" then { st with focused := true }
  else
    let st1 := { st with preventSuggestions := true }
    let st2 := hideSuggestionsOp (hideAutocompleteOp st1)
    { st2 with inputValue := ""
               focused := true
               sentQueries := st2.sentQueries ++ [query] }

/-! ## Remote suggestion resolver (handleAutocomplete, lines 1638-1786) -/

/-- Outcome of one fetch against the autocomplete endpoint, as observed by the
resolver: a 2xx response carrying an optional suggestions array (none stands
for a missing or non-array field, or a JSON body that fails to parse), a
non-2xx response, or a network failure that makes fetch throw. -/
inductive RemoteOutcome where
  | success (suggestions : Option (List String))
  | httpError
  | netError
  deriving Repr, DecidableEq

/-- What a resolution does to the autocomplete surface: render a list of items
(showAutocomplete with the trimmed query) or hide it. -/
inductive AutoResult where
  | showItems (items : List String) (query : String)
  | hideSurface
  deriving Repr, DecidableEq

/-- Full observable outcome of one handleAutocomplete call: the surface action
plus which remote requests were issued. -/
structure Resolution where
  result : AutoResult
  remoteAttempted : Bool
  fallbackAttempted : Bool
  deriving Repr, DecidableEq

/-- Static keyword-to-suggestions table (lines 1658-1702), in source order. -/
def keywordMap : List (String × List String) :=
  [ ("what",
      [ "What are all the column names in this dataset?"
      , "What is the total transportation cost?"
      , "What are all the source locations?"
      , "What products are being shipped?"
      , "What is the total weight?" ])
  , ("how",
      [ "How many consignments are there in total?"
      , "How many records are present in the file?"
      , "How many unique customers are represented?"
      , "How many source locations are there?" ])
  , ("which",
      [ "Which transportation mode has the highest average transportation cost?"
      , "Which source location dispatches the most consignments?"
      , "Which destination location receives the most consignments?" ])
  , ("when",
      [ "What is the earliest dispatch date in the dataset?"
      , "What is the latest dispatch date in the dataset?" ])
  , ("where",
      [ "What are all unique source locations in the dataset?"
      , "What are all unique destination locations in the dataset?" ])
  , ("show",
      [ "What are all the column names in this dataset?"
      , "What are all unique products in the dataset?"
      , "What are all unique customers in the dataset?" ])
  , ("list",
      [ "What are all the column names in this dataset?"
      , "What are all unique products in the dataset?"
      , "What are all unique source locations in the dataset?" ])
  , ("weight",
      [ "What is the total weight of all shipments?"
      , "What is the average weight per consignment?"
      , "How does average weight per consignment vary by transportation mode?"
      , "What is the weight per case ratio for each product?" ])
  , ("kg",
      [ "What is the total weight of all shipments?"
      , "What is the average weight per consignment?"
      , "What is the cost per kilogram for each consignment?" ])
  , ("kilogram",
      [ "What is the total weight of all shipments?"
      , "What is the average weight per consignment?"
      , "What is the cost per kilogram for each consignment?" ])
  , ("cost",
      [ "What is the total transportation cost across all consignments?"
      , "What is the average transportation cost per consignment?"
      , "What is the cost per case for each consignment?"
      , "What is the cost per kilogram for each consignment?" ])
  , ("price",
      [ "What is the total transportation cost across all consignments?"
      , "What is the average transportation cost per consignment?" ])
  , ("money",
      [ "What is the total transportation cost across all consignments?"
      , "What is the total consignment MRP value across all records?" ])
  , ("rupee",
      [ "What is the total transportation cost across all consignments?"
      , "What is the average transportation cost per consignment?" ])
  , ("volume",
      [ "What is the average volume across all consignments?"
      , "What is the total volume by transportation mode?"
      , "What is the average volume fill percentage across all shipments?" ])
  , ("cubic",
      [ "What is the average volume across all consignments?"
      , "What is the total volume by transportation mode?" ])
  , ("product",
      [ "What is the unique count of products in the dataset?"
      , "What are all unique products in the dataset?"
      , "Which product appears most frequently in the dataset?"
      , "What is the weight per case ratio for each product?" ])
  , ("item",
      [ "What is the unique count of products in the dataset?"
      , "What are all unique products in the dataset?" ])
  , ("customer",
      [ "How many unique customers are represented?"
      , "What are all unique customers in the dataset?"
      , "Which customer has the highest number of consignments?"
      , "Which customer has the highest total transportation cost?" ])
  , ("client",
      [ "How many unique customers are represented?"
      , "What are all unique customers in the dataset?" ])
  , ("consignment",
      [ "What is the unique count of consignment numbers?"
      , "How many records are present in the file?"
      , "What is the average transportation cost per consignment?"
      , "What is the average weight per consignment?" ])
  , ("order",
      [ "How many unique orders are there in the dataset?"
      , "Which orders contain the most cases?" ])
  , ("shipment",
      [ "What is the total weight of all shipments?"
      , "What is the total transportation cost across all consignments?" ])
  , ("source",
      [ "What is the unique count of source locations?"
      , "What are all unique source locations in the dataset?"
      , "What are the unique source types available?"
      , "How many consignments originate from each source location?" ])
  , ("destination",
      [ "What is the unique count of destination locations?"
      , "What are all unique destination locations in the dataset?"
      , "What are the unique destination types available?"
      , "How many consignments are delivered to each destination location?" ])
  , ("location",
      [ "What is the unique count of source locations?"
      , "What is the unique count of destination locations?"
      , "What are all unique source locations in the dataset?"
      , "What are all unique destination locations in the dataset?" ])
  , ("mode",
      [ "What are the unique transportation modes available?"
      , "How many consignments use each transportation mode?"
      , "What is the total transportation cost by transportation mode?" ])
  , ("transportation",
      [ "What are the unique transportation modes available?"
      , "What is the total transportation cost across all consignments?"
      , "What is the total transportation cost by transportation mode?" ])
  , ("vehicle",
      [ "What are the unique transportation modes available?"
      , "How many consignments use each transportation mode?" ])
  , ("truck",
      [ "What are the unique transportation modes available?"
      , "How many consignments use each transportation mode?" ])
  , ("case",
      [ "What is the total number of cases shipped across all consignments?"
      , "What is the average number of cases per consignment?"
      , "What is the cost per case for each consignment?"
      , "What is the weight per case ratio for each product?" ])
  , ("cases",
      [ "What is the total number of cases shipped across all consignments?"
      , "What is the average number of cases per consignment?"
      , "Which orders contain the most cases?" ]) ]

/-- First pass of the local lookup (lines 1709-1720): walk the table in order;
at the first keyword that prefixes the query, keep the canned entries that
start with the query or contain the last word, but only stop there when that
filter is non-empty. -/
def firstStarterMatch (trimmedQuery lastWord : String) :
    List (String × List String) → List String
  | [] => []
  | (keyword, keywordSuggestions) :: rest =>
      if strStartsWith trimmedQuery keyword then
        let matching := keywordSuggestions.filter (fun s =>
          strStartsWith (jsToLower s) trimmedQuery || strContains (jsToLower s) lastWord)
        if 0 < matching.length then matching
        else firstStarterMatch trimmedQuery lastWord rest
      else firstStarterMatch trimmedQuery lastWord rest

/-- Second pass of the local lookup (lines 1723-1730): the canned list of the
first query word that is itself a table key. -/
def firstWordMatch : List String → List String
  | [] => []
  | w :: rest =>
      match keywordMap.find? (fun p => p.1 == w) with
      | some p => p.2
      | none => firstWordMatch rest

/-- Combined local keyword lookup. -/
def localSuggestionsFor (trimmedQuery lastWord : String) (queryWords : List String) :
    List String :=
  let starter := firstStarterMatch trimmedQuery lastWord keywordMap
  if starter ≠ [] then starter else firstWordMatch queryWords

/-- Lower-cased trimmed query, as computed at line 1644. -/
def normalizedQuery (query : String) : String :=
  jsToLower (jsTrim query)

/-- Last whitespace-separated word of the normalized query (line 1648). -/
def lastWordOf (trimmedQuery : String) : String :=
  (splitWs trimmedQuery).getLastD ""

/-- Relevance predicate of the full-query remote branch (lines 1774-1777):
case-insensitive containment of the whole normalized query, or containment of
any space-separated query word. -/
def relevantTo (trimmedQuery : String) (s : String) : Bool :=
  strContains (jsToLower s) trimmedQuery ||
    (splitOnChar ' ' trimmedQuery).any (fun w => strContains (jsToLower s) w)

/-- handleAutocomplete (lines 1638-1786).  The oracle maps the body of each
POST to the autocomplete endpoint to its observed outcome; the full-query
request uses the normalized query, the fallback request uses the last word. -/
def handleAutocomplete (query : String) (oracle : String → RemoteOutcome) : Resolution :=
  if (jsTrim query).length < 1 then ⟨.hideSurface, false, false⟩
  else
    let trimmedQuery := normalizedQuery query
    let words := splitWs trimmedQuery
    let lastWord := words.getLastD ""
    if trimmedQuery.length < 2 then ⟨.hideSurface, false, false⟩
    else
      let suggestions := localSuggestionsFor trimmedQuery lastWord words
      if suggestions ≠ [] then
        ⟨.showItems (suggestions.take 5) (jsTrim query), false, false⟩
      else
        match oracle trimmedQuery with
        | .success (some l) =>
            if l ≠ [] then
              let filtered := l.filter (relevantTo trimmedQuery)
              ⟨.showItems ((if filtered ≠ [] then filtered else l).take 5) (jsTrim query),
                true, false⟩
            else ⟨.hideSurface, true, false⟩
        | .success none => ⟨.hideSurface, true, false⟩
        | .netError => ⟨.hideSurface, true, false⟩
        | .httpError =>
            if 2 ≤ lastWord.length ∧ lastWord ≠ trimmedQuery then
              match oracle lastWord with
              | .success (some l) =>
                  if l ≠ [] then ⟨.showItems (l.take 5) (jsTrim query), true, true⟩
                  else ⟨.hideSurface, true, true⟩
              | _ => ⟨.hideSurface, true, true⟩
            else ⟨.hideSurface, true, false⟩

/-! ## Conversation session controller (sendMessage / sendMessageWithQuery) -/

/-- Parsed JSON body of a successful query response. -/
structure QueryResponse where
  error : Option String
  answer : Option String
  suggestions : List String
  deriving Repr, DecidableEq

/-- JavaScript truthiness of an optional string field. -/
def jsTruthy : Option String → Bool
  | some s => s ≠ ""
  | none => false

/-- JavaScript a-or-else-b on an optional string (empty string is falsy). -/
def jsOrString (v : Option String) (d : String) : String :=
  match v with
  | some s => if s = "" then d else s
  | none => d

/-- Field labels of the personal-information patterns (lines 2121-2132).  Each
source regex is the label followed by optional whitespace and any non-newline
tail, all three parts nullable beyond the label, so the regex tests positive
exactly when the answer contains the label case-insensitively. -/
def personalInfoLabels : List String :=
  [ "Full Name", "Mobile Number", "Email Address", "Current Company"
  , "Current Designation", "Current CTC", "Exp CTC", "Notice Period"
  , "Work Experience", "Total Experience" ]

/-- Case-insensitive containment, as the gi regexes test it. -/
def containsCI (hay needle : String) : Bool :=
  strContains (jsToLower hay) (jsToLower needle)

/-- Detection loop of lines 2134-2139. -/
def hasPersonalInfo (answer : String) : Bool :=
  personalInfoLabels.any (fun p => containsCI answer p)

/-- Fixed refusal text substituted for the whole answer (line 2143). -/
def refusalMessage : String :=
  "I'm sorry, I don't have access to personal information or individual details. I can only help you with aggregated logistics data, such as:\n\n• Total consignments, costs, and metrics\n• Product information and shipping details\n• Source and destination locations\n• Transportation and utilization statistics\n\nPlease ask questions about your logistics data instead."

/-- Text of the assistant message appended on a delivered (2xx, parseable)
response (lines 2113-2153): a truthy error field is echoed; otherwise the
answer (defaulted when falsy) is replaced wholesale by the refusal text when
any personal-information label occurs in it. -/
def deliveredMessageText (r : QueryResponse) : String :=
  if jsTruthy r.error then "Error: " ++ jsOrString r.answer (r.error.getD "")
  else
    let answer := jsOrString r.answer "No answer provided"
    if hasPersonalInfo answer then refusalMessage else answer

/-- A thrown JavaScript error as seen by the catch block: its name and message. -/
structure JsError where
  name : String
  message : String
  deriving Repr, DecidableEq

/-- Connectivity-checklist message template (lines 2188-2193). -/
def connectivityMessage (apiUrl : String) : String :=
  "Unable to connect to the API server at " ++ apiUrl ++ ". Please check:\n\n" ++
  "1. The server is running and accessible\n" ++
  "2. The API URL is correct: " ++ apiUrl ++ "\n" ++
  "3. There are no network or firewall issues\n" ++
  "4. CORS is properly configured on the server"

/-- Timeout-specific message (line 2195). -/
def timeoutDisplayMessage : String :=
  "Request timed out. The server may be slow or unresponsive. Please try again."

/-- Error classification of the catch block (lines 2186-2196). -/
def errorDisplayMessage (apiUrl : String) (e : JsError) : String :=
  if strContains e.message "Failed to fetch" || strContains e.message "NetworkError"
      || e.name == "TypeError" then
    connectivityMessage apiUrl
  else if strContains e.message "timeout" || e.name == "TimeoutError" then
    timeoutDisplayMessage
  else e.message

/-- Outcome of the awaited query fetch: a delivered parsed response, or a
thrown error.  A non-2xx response is converted by lines 2096-2105 into a
thrown Error (name Error) whose message is the error field, else the answer
field, else the HTTP status text, so it reaches the catch block too. -/
inductive QueryOutcome where
  | delivered (r : QueryResponse)
  | thrown (e : JsError)
  deriving Repr, DecidableEq

/-- What the tail of sendMessageWithQuery does to the transcript once the
outcome is known: the loading placeholder is removed and exactly one assistant
message is appended, on every path. -/
structure SendCompletion where
  loadingRemoved : Bool
  appended : List Msg
  deriving Repr, DecidableEq

/-- Completion behaviour of sendMessageWithQuery (lines 2106-2199). -/
def processQueryOutcome (apiUrl : String) (o : QueryOutcome) : SendCompletion :=
  match o with
  | .delivered r => ⟨true, [⟨Role.assistant, deliveredMessageText r⟩]⟩
  | .thrown e =>
      ⟨true, [⟨Role.assistant, "Sorry, I encountered an error: " ++ errorDisplayMessage apiUrl e⟩]⟩

/-- Rejection produced by an AbortController abort when the 60 s deadline
fires: a DOMException named AbortError; its message never contains the word
timeout and its name is not TimeoutError. -/
def abortTimeoutError : JsError :=
  ⟨"AbortError", "signal is aborted without reason"⟩

/-- Entry phase of sendMessage (lines 2002-2041 and 2049-2077): what is
appended, whether the loading placeholder is added, and which query (if any)
is posted. -/
structure SendStart where
  appended : List Msg
  loadingAdded : Bool
  request : Option String
  deriving Repr, DecidableEq

/-- sendMessage on the current input value: a blank value appends only the
advisory assistant message and stops; otherwise the user message is appended,
the loading placeholder is added and the trimmed query is posted. -/
def sendMessageStart (inputValue : String) : SendStart :=
  let query := jsTrim inputValue
  if query = "" then ⟨[⟨Role.assistant, typePromptMessage⟩], false, none⟩
  else ⟨[⟨Role.user, query⟩], true, some query⟩

/-! ## Greeting bootstrap (loadGreeting, lines 1564-1636) -/

/-- Outcome of the greet fetch: parsed payload, or total failure (non-2xx,
network error or unparseable body, all of which reach the catch block). -/
inductive GreetOutcome where
  | success (message : Option String) (hasData : Bool) (suggestions : List String)
  | failure
  deriving Repr, DecidableEq

/-- Default greeting appended when the greet call fails (line 1628). -/
def defaultGreetingText : String :=
  "👋 Hello! I'm your Logistics Data Assistant. I can help you analyze your Excel/CSV files and answer questions about your logistics data. Please upload a file to begin."

/-- Hard-coded default suggestions of the failure branch (lines 1630-1634). -/
def defaultGreetingSuggestions : List String :=
  [ "What are all the column names in this file?"
  , "How many consignments are there in total?"
  , "What is the total transportation cost?" ]

/-- loadGreeting: on success, the greeting message (when truthy) is appended
and the payload suggestions are reduced and shown when data is present (the
500 ms delayed showSuggestions call is modelled synchronously; the guard reads
suggestionsShown after hideSuggestions just cleared it); on failure, the
hard-coded greeting is appended and the hard-coded 3-item list is shown. -/
def loadGreetingCoord (st : CoordState) (o : GreetOutcome) : CoordState × List Msg :=
  match o with
  | .success message hasData suggestions =>
      let msgs := if jsTruthy message then [⟨Role.assistant, message.getD ""⟩] else []
      if hasData ∧ suggestions ≠ [] then
        let limited := limitSuggestions st.usedSuggestions suggestions
        let st1 := hideSuggestionsOp st
        if ¬ st1.suggestionsShown ∧ limited ≠ [] then (showSuggestionsOp st1 limited, msgs)
        else (st1, msgs)
      else (hideSuggestionsOp st, msgs)
  | .failure =>
      (showSuggestionsOp st (defaultGreetingSuggestions.take 3),
        [⟨Role.assistant, defaultGreetingText⟩])

/-! ## Remaining coordinator callbacks and the operation machine -/

/-- Effect of a finished resolution on the surfaces: handleAutocomplete either
calls showAutocomplete with the items and the trimmed query, or
hideAutocomplete. -/
def applyResolution (st : CoordState) (r : AutoResult) : CoordState :=
  match r with
  | .showItems items _query => showAutocompleteOp st items
  | .hideSurface => hideAutocompleteOp st

/-- The deferred 100 ms preventSuggestions reset scheduled by hideAutocomplete
fires. -/
def preventResetFireOp (st : CoordState) : CoordState :=
  if st.pendingPreventReset then
    { st with preventSuggestions := false, pendingPreventReset := false }
  else st

/-- The 150 ms autocomplete timer fires (lines 1040-1048): re-check the input
still has text, hide the chips and apply the outcome of handleAutocomplete on
the current value (carried here as resolved). -/
def autoTimerFireOp (st : CoordState) (resolved : AutoResult) : CoordState :=
  if st.autocompleteTimeout then
    let st0 := { st with autocompleteTimeout := false }
    if 1 ≤ (jsTrim st0.inputValue).length then
      applyResolution (hideSuggestionsOp st0) resolved
    else st0
  else st

/-- The 200 ms suggestions-reveal timer fires (lines 1057-1067): only when the
input is still empty and suggestions are not blocked, hide the autocomplete
and run showSuggestionsIfAvailable. -/
def sugTimerFireOp (st : CoordState) : CoordState :=
  if st.suggestionsTimeout then
    let st0 := { st with suggestionsTimeout := false }
    if (jsTrim st0.inputValue).length = 0 then
      if !st0.preventSuggestions then
        showSuggestionsIfAvailableOp (hideAutocompleteOp st0)
      else st0
    else st0
  else st

/-- The 500 ms post-send timer fires (lines 2061-2069): unblock suggestions
and, when the input is still empty, hide the autocomplete and run
showSuggestionsIfAvailable. -/
def sendDelayFireOp (st : CoordState) : CoordState :=
  let st0 := { st with preventSuggestions := false }
  if (jsTrim st0.inputValue).length = 0 then
    showSuggestionsIfAvailableOp (hideAutocompleteOp st0)
  else st0

/-- The 300 ms timer of the delivered-response path fires (lines 2168-2177):
when the input is still empty, hide the autocomplete and show the already
reduced response suggestions. -/
def respSuggestionsFireOp (st : CoordState) (limited : List String) : CoordState :=
  if (jsTrim st.inputValue).length = 0 then
    showSuggestionsOp (hideAutocompleteOp st) limited
  else st

/-- Enter in the input (lines 972-984): select the highlighted autocomplete
item when one is highlighted, else send the non-blank input. -/
def enterKeyOp (st : CoordState) : CoordState :=
  if 0 ≤ st.currentAutocompleteIndex ∧ 0 < st.autocompleteItems.length then
    selectAutocompleteItemOp st st.currentAutocompleteIndex
  else if jsTrim st.inputValue ≠ "" then sendMessageCoord st
  else st

/-- Tab in the input (lines 993-1001): with items present, select the
highlighted item, defaulting to index 0. -/
def tabKeyOp (st : CoordState) : CoordState :=
  if 0 < st.autocompleteItems.length then
    if 0 ≤ st.currentAutocompleteIndex then
      selectAutocompleteItemOp st st.currentAutocompleteIndex
    else selectAutocompleteItemOp st 0
  else st

/-- Escape in the input (lines 1002-1004). -/
def escapeKeyOp (st : CoordState) : CoordState :=
  hideAutocompleteOp st

/-- navigateAutocomplete (lines 1965-1977): move the highlight with
wraparound. -/
def navigateAutocompleteOp (st : CoordState) (direction : Int) : CoordState :=
  if st.autocompleteItems.length = 0 then st
  else
    let i := st.currentAutocompleteIndex + direction
    let i :=
      if i < 0 then (st.autocompleteItems.length : Int) - 1
      else if (st.autocompleteItems.length : Int) ≤ i then 0
      else i
    { st with currentAutocompleteIndex := i }

/-- Focus handler (lines 1072-1086): with at least 2 characters in the input,
handleAutocomplete runs immediately; its outcome is carried as resolved. -/
def focusEventOp (st : CoordState) (resolved : AutoResult) : CoordState :=
  let st0 := { st with focused := true }
  if 2 ≤ st0.inputValue.length then applyResolution st0 resolved else st0

/-- One asynchronous event of the coordinator: a user action, a timer firing
(with the resolver outcome it observes, where one is involved), or a
completion callback. -/
inductive CoordOp where
  | inputEvent (value : String)
  | autoFire (resolved : AutoResult)
  | sugFire
  | preventResetFire
  | enterKey
  | tabKey
  | escapeKey
  | arrowKey (direction : Int)
  | clickItem (index : Int)
  | clickChip (s : String)
  | clickSend
  | sendDelayFire
  | respSuggestionsFire (limited : List String)
  | focusEvent (resolved : AutoResult)
  | greet (o : GreetOutcome)

/-- Dispatch of one event to its handler. -/
def coordStep (st : CoordState) : CoordOp → CoordState
  | .inputEvent value => inputEventOp st value
  | .autoFire resolved => autoTimerFireOp st resolved
  | .sugFire => sugTimerFireOp st
  | .preventResetFire => preventResetFireOp st
  | .enterKey => enterKeyOp st
  | .tabKey => tabKeyOp st
  | .escapeKey => escapeKeyOp st
  | .arrowKey direction => navigateAutocompleteOp st direction
  | .clickItem index => selectAutocompleteItemOp st index
  | .clickChip s => chipClickOp st s
  | .clickSend => sendMessageCoord st
  | .sendDelayFire => sendDelayFireOp st
  | .respSuggestionsFire limited => respSuggestionsFireOp st limited
  | .focusEvent resolved => focusEventOp st resolved
  | .greet o => (loadGreetingCoord st o).1

/-- A whole session: the events in arrival order, folded over the initial
state. -/
def runCoord (st : CoordState) (ops : List CoordOp) : CoordState :=
  ops.foldl coordStep st

/-- Mutual-exclusion condition on the two help surfaces. -/
def surfacesExclusive (st : CoordState) : Prop :=
  ¬ (st.autoVisible = true ∧ st.sugVisible = true)

/-- Whether a remote outcome carries a non-empty suggestions array (the only
shape a fallback response may have to be rendered). -/
def hasNonEmptySuggestions : RemoteOutcome → Bool
  | .success (some l) => !l.isEmpty
  | _ => false

/-- Test oracle: the full-query request fails with a non-2xx response, the
last-word fallback succeeds with an empty suggestions array. -/
def c5Oracle : String → RemoteOutcome := fun s =>
  if s = "zzzz aa" then RemoteOutcome.httpError else RemoteOutcome.success (some [])

/-- Test oracle: every request succeeds with a fixed two-entry array of which
only the first is relevant to the probe query. -/
def c6Oracle : String → RemoteOutcome := fun _ =>
  RemoteOutcome.success (some ["contains zzzz here", "unrelated text"])

/-- Test oracle: every request succeeds with one suggestion. -/
def c7Oracle : String → RemoteOutcome := fun _ =>
  RemoteOutcome.success (some ["How many consignments are there in total?"])

/-! ## Field lemmas for the surface operations -/

@[simp] theorem hideAutocompleteOp_autoVisible (st : CoordState) :
    (hideAutocompleteOp st).autoVisible = false := by
  simp only [hideAutocompleteOp]; split <;> rfl

@[simp] theorem hideAutocompleteOp_sugVisible (st : CoordState) :
    (hideAutocompleteOp st).sugVisible = st.sugVisible := by
  simp only [hideAutocompleteOp]; split <;> rfl

@[simp] theorem hideAutocompleteOp_autocompleteTimeout (st : CoordState) :
    (hideAutocompleteOp st).autocompleteTimeout = false := by
  simp only [hideAutocompleteOp]; split <;> rfl

@[simp] theorem hideAutocompleteOp_suggestionsTimeout (st : CoordState) :
    (hideAutocompleteOp st).suggestionsTimeout = st.suggestionsTimeout := by
  simp only [hideAutocompleteOp]; split <;> rfl

@[simp] theorem hideAutocompleteOp_chips (st : CoordState) :
    (hideAutocompleteOp st).chips = st.chips := by
  simp only [hideAutocompleteOp]; split <;> rfl

@[simp] theorem hideAutocompleteOp_suggestionsShown (st : CoordState) :
    (hideAutocompleteOp st).suggestionsShown = st.suggestionsShown := by
  simp only [hideAutocompleteOp]; split <;> rfl

@[simp] theorem hideAutocompleteOp_usedSuggestions (st : CoordState) :
    (hideAutocompleteOp st).usedSuggestions = st.usedSuggestions := by
  simp only [hideAutocompleteOp]; split <;> rfl

@[simp] theorem hideAutocompleteOp_inputValue (st : CoordState) :
    (hideAutocompleteOp st).inputValue = st.inputValue := by
  simp only [hideAutocompleteOp]; split <;> rfl

@[simp] theorem hideAutocompleteOp_sentQueries (st : CoordState) :
    (hideAutocompleteOp st).sentQueries = st.sentQueries := by
  simp only [hideAutocompleteOp]; split <;> rfl

@[simp] theorem hideAutocompleteOp_focused (st : CoordState) :
    (hideAutocompleteOp st).focused = st.focused := by
  simp only [hideAutocompleteOp]; split <;> rfl

@[simp] theorem hideSuggestionsOp_sugVisible (st : CoordState) :
    (hideSuggestionsOp st).sugVisible = false := rfl

@[simp] theorem hideSuggestionsOp_autoVisible (st : CoordState) :
    (hideSuggestionsOp st).autoVisible = st.autoVisible := rfl

@[simp] theorem hideSuggestionsOp_suggestionsTimeout (st : CoordState) :
    (hideSuggestionsOp st).suggestionsTimeout = false := rfl

@[simp] theorem hideSuggestionsOp_autocompleteTimeout (st : CoordState) :
    (hideSuggestionsOp st).autocompleteTimeout = st.autocompleteTimeout := rfl

@[simp] theorem hideSuggestionsOp_chips (st : CoordState) :
    (hideSuggestionsOp st).chips = [] := rfl

@[simp] theorem hideSuggestionsOp_usedSuggestions (st : CoordState) :
    (hideSuggestionsOp st).usedSuggestions = st.usedSuggestions := rfl

@[simp] theorem hideSuggestionsOp_inputValue (st : CoordState) :
    (hideSuggestionsOp st).inputValue = st.inputValue := rfl

@[simp] theorem hideSuggestionsOp_sentQueries (st : CoordState) :
    (hideSuggestionsOp st).sentQueries = st.sentQueries := rfl

@[simp] theorem showAutocompleteOp_sugVisible (st : CoordState) (l : List String) :
    (showAutocompleteOp st l).sugVisible = false := rfl

@[simp] theorem showAutocompleteOp_suggestionsTimeout (st : CoordState) (l : List String) :
    (showAutocompleteOp st l).suggestionsTimeout = false := rfl

@[simp] theorem showAutocompleteOp_autoVisible (st : CoordState) (l : List String) :
    (showAutocompleteOp st l).autoVisible = true := rfl

@[simp] theorem showAutocompleteOp_chips (st : CoordState) (l : List String) :
    (showAutocompleteOp st l).chips = [] := rfl

@[simp] theorem showSuggestionsOp_autoVisible (st : CoordState) (l : List String) :
    (showSuggestionsOp st l).autoVisible = false := by
  simp only [showSuggestionsOp]
  split <;> simp

@[simp] theorem showSuggestionsOp_autocompleteTimeout (st : CoordState) (l : List String) :
    (showSuggestionsOp st l).autocompleteTimeout = false := by
  simp only [showSuggestionsOp]
  split <;> simp

theorem showSuggestionsOp_sugVisible_of_ne (st : CoordState) (l : List String) (h : l ≠ []) :
    (showSuggestionsOp st l).sugVisible = true := by
  simp only [showSuggestionsOp]
  rw [if_neg (by simpa using h)]

theorem showSuggestionsOp_chips_of_ne (st : CoordState) (l : List String) (h : l ≠ []) :
    (showSuggestionsOp st l).chips = filterSuggestions st.usedSuggestions l := by
  simp only [showSuggestionsOp]
  rw [if_neg (by simpa using h)]

@[simp] theorem showSuggestionsOp_nil_sugVisible (st : CoordState) :
    (showSuggestionsOp st []).sugVisible = false := rfl

@[simp] theorem showSuggestionsOp_nil_chips (st : CoordState) :
    (showSuggestionsOp st []).chips = [] := rfl

/-! ## Mutual exclusion of the two help surfaces -/

theorem exclusive_of_auto_false {st : CoordState} (h : st.autoVisible = false) :
    surfacesExclusive st := by
  intro hc
  rw [h] at hc
  exact Bool.false_ne_true hc.1

theorem exclusive_of_sug_false {st : CoordState} (h : st.sugVisible = false) :
    surfacesExclusive st := by
  intro hc
  rw [h] at hc
  exact Bool.false_ne_true hc.2

theorem surfacesExclusive_hideAutocompleteOp (st : CoordState) :
    surfacesExclusive (hideAutocompleteOp st) :=
  exclusive_of_auto_false (hideAutocompleteOp_autoVisible st)

theorem surfacesExclusive_hideSuggestionsOp (st : CoordState) :
    surfacesExclusive (hideSuggestionsOp st) :=
  exclusive_of_sug_false (hideSuggestionsOp_sugVisible st)

theorem surfacesExclusive_showAutocompleteOp (st : CoordState) (l : List String) :
    surfacesExclusive (showAutocompleteOp st l) :=
  exclusive_of_sug_false (showAutocompleteOp_sugVisible st l)

theorem surfacesExclusive_showSuggestionsOp (st : CoordState) (l : List String) :
    surfacesExclusive (showSuggestionsOp st l) :=
  exclusive_of_auto_false (showSuggestionsOp_autoVisible st l)

theorem surfacesExclusive_applyResolution (st : CoordState) (r : AutoResult) :
    surfacesExclusive (applyResolution st r) := by
  cases r with
  | showItems items q => exact surfacesExclusive_showAutocompleteOp _ _
  | hideSurface => exact surfacesExclusive_hideAutocompleteOp _

theorem surfacesExclusive_inputEventOp (st : CoordState) (v : String) :
    surfacesExclusive (inputEventOp st v) := by
  simp only [inputEventOp]
  split
  · exact exclusive_of_sug_false rfl
  · exact exclusive_of_auto_false (by simp)

theorem surfacesExclusive_showSuggestionsIfAvailableOp {st : CoordState}
    (h : surfacesExclusive st) : surfacesExclusive (showSuggestionsIfAvailableOp st) := by
  simp only [showSuggestionsIfAvailableOp]
  split
  · exact h
  · split <;> split <;>
      first
        | exact surfacesExclusive_showSuggestionsOp _ _
        | exact h

theorem surfacesExclusive_fields {st st' : CoordState}
    (ha : st'.autoVisible = st.autoVisible) (hs : st'.sugVisible = st.sugVisible)
    (h : surfacesExclusive st) : surfacesExclusive st' := by
  intro hc
  exact h ⟨ha ▸ hc.1, hs ▸ hc.2⟩

theorem surfacesExclusive_autoTimerFireOp {st : CoordState} (r : AutoResult)
    (h : surfacesExclusive st) : surfacesExclusive (autoTimerFireOp st r) := by
  simp only [autoTimerFireOp]
  split
  · split
    · exact surfacesExclusive_applyResolution _ _
    · exact surfacesExclusive_fields rfl rfl h
  · exact h

theorem surfacesExclusive_sugTimerFireOp {st : CoordState}
    (h : surfacesExclusive st) : surfacesExclusive (sugTimerFireOp st) := by
  simp only [sugTimerFireOp]
  split
  · split
    · split
      · exact surfacesExclusive_showSuggestionsIfAvailableOp
          (surfacesExclusive_hideAutocompleteOp _)
      · exact surfacesExclusive_fields rfl rfl h
    · exact surfacesExclusive_fields rfl rfl h
  · exact h

theorem surfacesExclusive_preventResetFireOp {st : CoordState}
    (h : surfacesExclusive st) : surfacesExclusive (preventResetFireOp st) := by
  simp only [preventResetFireOp]
  split
  · exact surfacesExclusive_fields rfl rfl h
  · exact h

theorem surfacesExclusive_selectAutocompleteItemOp {st : CoordState} (i : Int)
    (h : surfacesExclusive st) : surfacesExclusive (selectAutocompleteItemOp st i) := by
  simp only [selectAutocompleteItemOp]
  split
  · exact exclusive_of_auto_false (by simp)
  · exact h

theorem surfacesExclusive_chipClickOp (st : CoordState) (s : String) :
    surfacesExclusive (chipClickOp st s) :=
  surfacesExclusive_hideSuggestionsOp _

theorem surfacesExclusive_sendMessageCoord {st : CoordState}
    (h : surfacesExclusive st) : surfacesExclusive (sendMessageCoord st) := by
  simp only [sendMessageCoord]
  split
  · exact surfacesExclusive_fields rfl rfl h
  · exact exclusive_of_sug_false (by simp)

theorem surfacesExclusive_enterKeyOp {st : CoordState}
    (h : surfacesExclusive st) : surfacesExclusive (enterKeyOp st) := by
  simp only [enterKeyOp]
  split
  · exact surfacesExclusive_selectAutocompleteItemOp _ h
  · split
    · exact surfacesExclusive_sendMessageCoord h
    · exact h

theorem surfacesExclusive_tabKeyOp {st : CoordState}
    (h : surfacesExclusive st) : surfacesExclusive (tabKeyOp st) := by
  simp only [tabKeyOp]
  split
  · split <;> exact surfacesExclusive_selectAutocompleteItemOp _ h
  · exact h

theorem surfacesExclusive_navigateAutocompleteOp {st : CoordState} (d : Int)
    (h : surfacesExclusive st) : surfacesExclusive (navigateAutocompleteOp st d) := by
  simp only [navigateAutocompleteOp]
  split
  · exact h
  · exact surfacesExclusive_fields rfl rfl h

theorem surfacesExclusive_sendDelayFireOp {st : CoordState}
    (h : surfacesExclusive st) : surfacesExclusive (sendDelayFireOp st) := by
  simp only [sendDelayFireOp]
  split
  · exact surfacesExclusive_showSuggestionsIfAvailableOp
      (surfacesExclusive_hideAutocompleteOp _)
  · exact surfacesExclusive_fields rfl rfl h

theorem surfacesExclusive_respSuggestionsFireOp {st : CoordState} (l : List String)
    (h : surfacesExclusive st) : surfacesExclusive (respSuggestionsFireOp st l) := by
  simp only [respSuggestionsFireOp]
  split
  · exact surfacesExclusive_showSuggestionsOp _ _
  · exact h

theorem surfacesExclusive_focusEventOp {st : CoordState} (r : AutoResult)
    (h : surfacesExclusive st) : surfacesExclusive (focusEventOp st r) := by
  simp only [focusEventOp]
  split
  · exact surfacesExclusive_applyResolution _ _
  · exact surfacesExclusive_fields rfl rfl h

theorem surfacesExclusive_loadGreetingCoord (st : CoordState) (o : GreetOutcome) :
    surfacesExclusive (loadGreetingCoord st o).1 := by
  cases o with
  | success message hasData suggestions =>
      simp only [loadGreetingCoord]
      split
      · split
        · exact surfacesExclusive_showSuggestionsOp _ _
        · exact surfacesExclusive_hideSuggestionsOp _
      · exact surfacesExclusive_hideSuggestionsOp _
  | failure => exact surfacesExclusive_showSuggestionsOp _ _

theorem surfacesExclusive_coordStep {st : CoordState} (op : CoordOp)
    (h : surfacesExclusive st) : surfacesExclusive (coordStep st op) := by
  cases op with
  | inputEvent v => exact surfacesExclusive_inputEventOp st v
  | autoFire r => exact surfacesExclusive_autoTimerFireOp r h
  | sugFire => exact surfacesExclusive_sugTimerFireOp h
  | preventResetFire => exact surfacesExclusive_preventResetFireOp h
  | enterKey => exact surfacesExclusive_enterKeyOp h
  | tabKey => exact surfacesExclusive_tabKeyOp h
  | escapeKey => exact surfacesExclusive_hideAutocompleteOp st
  | arrowKey d => exact surfacesExclusive_navigateAutocompleteOp d h
  | clickItem i => exact surfacesExclusive_selectAutocompleteItemOp i h
  | clickChip s => exact surfacesExclusive_chipClickOp st s
  | clickSend => exact surfacesExclusive_sendMessageCoord h
  | sendDelayFire => exact surfacesExclusive_sendDelayFireOp h
  | respSuggestionsFire l => exact surfacesExclusive_respSuggestionsFireOp l h
  | focusEvent r => exact surfacesExclusive_focusEventOp r h
  | greet o => exact surfacesExclusive_loadGreetingCoord st o

theorem surfacesExclusive_runCoord {st : CoordState} (ops : List CoordOp)
    (h : surfacesExclusive st) : surfacesExclusive (runCoord st ops) := by
  induction ops generalizing st with
  | nil => exact h
  | cons op rest ih =>
      exact ih (surfacesExclusive_coordStep op h)

/-- C1: Mutual exclusion of the help surfaces.  Every state reachable by any
sequence of coordinator events from the initial widget state has at most one
of the autocomplete dropdown and the suggestion-chip surface visible, never
both; moreover showAutocomplete tears down the chip surface (hides it, clears
its chips, cancels the pending suggestions timer) before displaying the item
dropdown, and showSuggestions tears down the autocomplete (hides it and
cancels the pending autocomplete timer) before rendering chips. -/
theorem help_surface_mutual_exclusion :
    (∀ ops : List CoordOp, surfacesExclusive (runCoord initCoordState ops))
    ∧ (∀ (st : CoordState) (items : List String),
        (showAutocompleteOp st items).sugVisible = false
        ∧ (showAutocompleteOp st items).chips = []
        ∧ (showAutocompleteOp st items).suggestionsTimeout = false
        ∧ (showAutocompleteOp st items).autoVisible = true)
    ∧ (∀ (st : CoordState) (l : List String),
        (showSuggestionsOp st l).autoVisible = false
        ∧ (showSuggestionsOp st l).autocompleteTimeout = false) := by
  refine ⟨fun ops => surfacesExclusive_runCoord ops (exclusive_of_auto_false rfl),
    fun st items => ⟨rfl, rfl, rfl, rfl⟩,
    fun st l => ⟨showSuggestionsOp_autoVisible st l, showSuggestionsOp_autocompleteTimeout st l⟩⟩

/-! ## Properties of the dedup and reduction policy -/

theorem mem_dedupFrom_not_seen {seen : List String} {l : List String} {y : String}
    (h : y ∈ dedupFrom seen l) : y ∉ seen := by
  induction l generalizing seen with
  | nil => simp [dedupFrom] at h
  | cons x xs ih =>
      simp only [dedupFrom] at h
      split at h
      · exact ih h
      · rename_i hc
        rcases List.mem_cons.mp h with h1 | h2
        · subst h1
          intro hy
          exact hc (List.elem_iff.mpr hy)
        · intro hy
          exact (ih h2) (List.mem_cons_of_mem _ hy)

theorem mem_dedupFrom_mem {seen : List String} {l : List String} {y : String}
    (h : y ∈ dedupFrom seen l) : y ∈ l := by
  induction l generalizing seen with
  | nil => simp [dedupFrom] at h
  | cons x xs ih =>
      simp only [dedupFrom] at h
      split at h
      · exact List.mem_cons_of_mem _ (ih h)
      · rcases List.mem_cons.mp h with h1 | h2
        · exact h1 ▸ List.mem_cons_self x xs
        · exact List.mem_cons_of_mem _ (ih h2)

theorem dedupFrom_nodup (seen : List String) (l : List String) :
    (dedupFrom seen l).Nodup := by
  induction l generalizing seen with
  | nil => exact List.nodup_nil
  | cons x xs ih =>
      simp only [dedupFrom]
      split
      · exact ih seen
      · refine List.Nodup.cons ?_ (ih (x :: seen))
        intro hx
        exact (mem_dedupFrom_not_seen hx) (List.mem_cons_self x seen)

theorem jsSetDedup_nodup (l : List String) : (jsSetDedup l).Nodup :=
  dedupFrom_nodup [] l

theorem jsSetDedup_eq_nil_iff (l : List String) : jsSetDedup l = [] ↔ l = [] := by
  cases l with
  | nil => simp [jsSetDedup, dedupFrom]
  | cons x xs =>
      simp only [jsSetDedup, dedupFrom, List.contains_nil]
      simp

theorem dedupFrom_eq_self {seen : List String} {l : List String}
    (hn : l.Nodup) (hs : ∀ x ∈ l, x ∉ seen) : dedupFrom seen l = l := by
  induction l generalizing seen with
  | nil => rfl
  | cons x xs ih =>
      simp only [dedupFrom]
      rw [if_neg]
      · rw [ih (List.Nodup.of_cons hn)]
        intro y hy
        intro hmem
        rcases List.mem_cons.mp hmem with h1 | h2
        · exact (List.nodup_cons.mp hn).1 (h1 ▸ hy)
        · exact hs y (List.mem_cons_of_mem _ hy) h2
      · intro hc
        exact hs x (List.mem_cons_self x xs) (List.elem_iff.mp hc)

theorem jsSetDedup_eq_self {l : List String} (hn : l.Nodup) : jsSetDedup l = l :=
  dedupFrom_eq_self hn (by simp)

theorem length_filter_partition (p : String → Bool) (l : List String) :
    (l.filter p).length + (l.filter (fun x => !(p x))).length = l.length := by
  induction l with
  | nil => rfl
  | cons x xs ih =>
      by_cases h : p x = true <;>
        simp [List.filter_cons, h, Nat.succ_eq_add_one, ← ih] <;> omega

theorem filterSuggestions_length (used l : List String) :
    (filterSuggestions used l).length = min 3 (jsSetDedup l).length := by
  simp only [filterSuggestions]
  have hpart : ((jsSetDedup l).filter (fun s => used.contains s)).length
      + ((jsSetDedup l).filter (fun s => !(used.contains s))).length
      = (jsSetDedup l).length :=
    length_filter_partition (fun s => used.contains s) (jsSetDedup l)
  split
  · rename_i hcond
    simp only [List.length_take] at hcond
    simp only [List.length_append, List.length_take]
    simp only [Nat.min_def] at hcond ⊢
    split_ifs at hcond ⊢ <;> omega
  · rename_i hcond
    simp only [List.length_take] at hcond
    simp only [List.length_take]
    simp only [Nat.min_def] at hcond ⊢
    split_ifs at hcond ⊢ <;> omega

theorem filterSuggestions_nodup (used l : List String) :
    (filterSuggestions used l).Nodup := by
  simp only [filterSuggestions]
  have hu : ((jsSetDedup l).filter (fun s => !(used.contains s))).Nodup :=
    List.Nodup.filter _ (jsSetDedup_nodup l)
  have hv : ((jsSetDedup l).filter (fun s => used.contains s)).Nodup :=
    List.Nodup.filter _ (jsSetDedup_nodup l)
  split
  · refine List.Nodup.append ?_ ?_ ?_
    · exact List.Nodup.sublist (List.take_sublist _ _) hu
    · exact List.Nodup.sublist (List.take_sublist _ _) hv
    · intro a ha hb
      have ha' := List.of_mem_filter (List.mem_of_mem_take ha)
      have hb' := List.of_mem_filter (List.mem_of_mem_take hb)
      simp only [Bool.not_eq_true'] at ha'
      rw [ha'] at hb'
      exact Bool.false_ne_true hb'
  · exact List.Nodup.sublist (List.take_sublist _ _) hu

theorem filterSuggestions_split (used l : List String) :
    ∃ a b, filterSuggestions used l = a ++ b
      ∧ (∀ s ∈ a, used.contains s = false)
      ∧ (∀ s ∈ b, used.contains s = true) := by
  simp only [filterSuggestions]
  split
  · refine ⟨_, _, rfl, ?_, ?_⟩
    · intro s hs
      have := List.of_mem_filter (List.mem_of_mem_take hs)
      simpa using this
    · intro s hs
      exact List.of_mem_filter (List.mem_of_mem_take hs)
  · refine ⟨_, [], (List.append_nil _).symm, ?_, by simp⟩
    intro s hs
    have := List.of_mem_filter (List.mem_of_mem_take hs)
    simpa using this

theorem filterSuggestions_ne_nil {used l : List String} (h : l ≠ []) :
    filterSuggestions used l ≠ [] := by
  intro hnil
  have hlen := filterSuggestions_length used l
  rw [hnil] at hlen
  have : (jsSetDedup l).length = 0 := by
    simp only [List.length_nil] at hlen
    rw [Nat.min_def] at hlen
    split_ifs at hlen
    all_goals omega
  exact h ((jsSetDedup_eq_nil_iff l).mp (List.length_eq_zero.mp this))

theorem filterSuggestions_eq_self {used l : List String}
    (hn : l.Nodup) (hunused : ∀ s ∈ l, used.contains s = false) (hlen : l.length ≤ 3) :
    filterSuggestions used l = l := by
  simp only [filterSuggestions]
  rw [jsSetDedup_eq_self hn]
  have hfil : l.filter (fun s => !(used.contains s)) = l := by
    apply List.filter_eq_self.mpr
    intro a ha
    have h1 := hunused a ha
    simp only [Bool.not_eq_true']
    exact h1
  rw [hfil]
  rw [if_neg (by omega)]
  exact List.take_of_length_le hlen

theorem defaultClearedSuggestions_nodup : defaultClearedSuggestions.Nodup := by decide

theorem showSuggestionsIfAvailableOp_chips_unused {st : CoordState}
    (hempty : jsTrim st.inputValue = "")
    (hne : defaultClearedSuggestions.filter (fun s => !(st.usedSuggestions.contains s)) ≠ []) :
    (showSuggestionsIfAvailableOp st).chips
      = (defaultClearedSuggestions.filter (fun s => !(st.usedSuggestions.contains s))).take 3 := by
  have hlen0 : (jsTrim st.inputValue).length = 0 := by rw [hempty]; rfl
  have hpos : 0 < (defaultClearedSuggestions.filter
      (fun s => !(st.usedSuggestions.contains s))).length :=
    List.length_pos.mpr hne
  have htake_ne : (defaultClearedSuggestions.filter
      (fun s => !(st.usedSuggestions.contains s))).take 3 ≠ [] := by
    intro h
    have hc := congrArg List.length h
    simp only [List.length_take, List.length_nil] at hc
    rw [Nat.min_def] at hc
    split_ifs at hc
    all_goals omega
  have htakepos : 0 < ((defaultClearedSuggestions.filter
      (fun s => !(st.usedSuggestions.contains s))).take 3).length :=
    List.length_pos.mpr htake_ne
  simp only [showSuggestionsIfAvailableOp]
  rw [if_neg (by omega), if_pos hpos, if_pos htakepos,
    showSuggestionsOp_chips_of_ne st _ htake_ne]
  apply filterSuggestions_eq_self
  · exact List.Nodup.sublist (List.take_sublist _ _)
      (List.Nodup.filter _ defaultClearedSuggestions_nodup)
  · intro s hs
    have := List.of_mem_filter (List.mem_of_mem_take hs)
    simpa using this
  · simp only [List.length_take]
    exact Nat.min_le_left 3 _

/-- C2 (amended): the reduction policy of showSuggestions deduplicates
preserving first-seen order, renders at most 3 chips with all unused
candidates before used ones, and backfills from used candidates up to 3 or
until the candidates are exhausted (the rendered length is the minimum of 3
and the number of distinct candidates); an empty candidate list leaves the
surface hidden and a non-empty one renders it.  The list-reduction inside
showSuggestionsIfAvailable, however, does not backfill from used entries:
whenever any unused default exists it renders exactly the first 3 unused
defaults, even when fewer than 3 remain and used candidates are available. -/
theorem chip_reveal_policy :
    (∀ used l : List String,
        (filterSuggestions used l).length ≤ 3
        ∧ (filterSuggestions used l).Nodup
        ∧ (∃ a b, filterSuggestions used l = a ++ b
            ∧ (∀ s ∈ a, used.contains s = false)
            ∧ (∀ s ∈ b, used.contains s = true))
        ∧ (filterSuggestions used l).length = min 3 (jsSetDedup l).length)
    ∧ (∀ st : CoordState,
        (showSuggestionsOp st []).sugVisible = false
        ∧ (showSuggestionsOp st []).chips = [])
    ∧ (∀ (st : CoordState) (l : List String), l ≠ [] →
        (showSuggestionsOp st l).sugVisible = true
        ∧ (showSuggestionsOp st l).chips = filterSuggestions st.usedSuggestions l
        ∧ (showSuggestionsOp st l).chips ≠ [])
    ∧ (∀ st : CoordState, jsTrim st.inputValue = "" →
        defaultClearedSuggestions.filter (fun s => !(st.usedSuggestions.contains s)) ≠ [] →
        (showSuggestionsIfAvailableOp st).chips
          = (defaultClearedSuggestions.filter (fun s => !(st.usedSuggestions.contains s))).take 3) := by
  refine ⟨fun used l => ⟨?_, filterSuggestions_nodup used l, filterSuggestions_split used l,
      filterSuggestions_length used l⟩,
    fun st => ⟨rfl, rfl⟩,
    fun st l hne => ⟨showSuggestionsOp_sugVisible_of_ne st l hne, showSuggestionsOp_chips_of_ne st l hne, ?_⟩,
    fun st hempty hne => showSuggestionsIfAvailableOp_chips_unused hempty hne⟩
  · rw [filterSuggestions_length]
    exact Nat.min_le_left 3 _
  · rw [showSuggestionsOp_chips_of_ne st l hne]
    exact filterSuggestions_ne_nil hne

/-- C2 counterexample: with four of the five defaults already used, the
chip surface rendered by showSuggestionsIfAvailable holds a single chip even
though four used candidates are available, so the claimed backfill to 3 does
not happen on this path. -/
theorem chip_reveal_policy_counterexample :
    (showSuggestionsIfAvailableOp
        { initCoordState with usedSuggestions :=
            [ "What are all the column names in this file?"
            , "How many consignments are there in total?"
            , "What is the total transportation cost?"
            , "What are all the source locations?" ] }).chips
      = ["What products are being shipped?"]
    ∧ (defaultClearedSuggestions.filter (fun s =>
        ([ "What are all the column names in this file?"
         , "How many consignments are there in total?"
         , "What is the total transportation cost?"
         , "What are all the source locations?" ] : List String).contains s)).length = 4 := by
  constructor
  · decide
  · decide

/-- C2 witness: a singleton candidate list renders exactly that chip. -/
theorem chip_reveal_policy_witness :
    (showSuggestionsOp initCoordState ["How many consignments are there in total?"]).chips
      = ["How many consignments are there in total?"]
    ∧ (showSuggestionsIfAvailableOp initCoordState).chips
      = (defaultClearedSuggestions.filter
          (fun s => !(([] : List String).contains s))).take 3 := by
  constructor
  · rw [(chip_reveal_policy.2.2.1 initCoordState
      ["How many consignments are there in total?"] (by decide)).2.1]
    decide
  · exact chip_reveal_policy.2.2.2 initCoordState (by decide) (by decide)

/-- C9: when the greet call fails entirely, loadGreeting appends the
hard-coded default greeting and shows the hard-coded default suggestion list,
rendering exactly 3 chips, so the session never starts with zero guidance
content. -/
theorem greeting_failure_defaults :
    ∀ st : CoordState,
      (loadGreetingCoord st GreetOutcome.failure).2 = [⟨Role.assistant, defaultGreetingText⟩]
      ∧ (loadGreetingCoord st GreetOutcome.failure).1.sugVisible = true
      ∧ (loadGreetingCoord st GreetOutcome.failure).1.chips.length = 3 := by
  intro st
  refine ⟨rfl, ?_, ?_⟩
  · exact showSuggestionsOp_sugVisible_of_ne st _ (by decide)
  · show (showSuggestionsOp st (defaultGreetingSuggestions.take 3)).chips.length = 3
    rw [showSuggestionsOp_chips_of_ne st _ (by decide), filterSuggestions_length]
    decide

/-- C10: invoking send with a blank (empty or whitespace-only) input appends
exactly one advisory assistant message and neither posts a query, nor appends
a user message, nor adds the loading placeholder; a non-blank input never
takes that path: it appends the user message, adds the loading placeholder
and posts the trimmed query. -/
theorem blank_send_advisory :
    ∀ v : String,
      (jsTrim v = "" →
        sendMessageStart v = ⟨[⟨Role.assistant, typePromptMessage⟩], false, none⟩)
      ∧ (jsTrim v ≠ "" →
        sendMessageStart v = ⟨[⟨Role.user, jsTrim v⟩], true, some (jsTrim v)⟩) := by
  intro v
  constructor <;> intro h <;> simp [sendMessageStart, h]

/-- C10 witness: a whitespace-only send yields only the advisory message; a
real query is posted with the user message and the loading placeholder. -/
theorem blank_send_advisory_witness :
    sendMessageStart "   " = ⟨[⟨Role.assistant, typePromptMessage⟩], false, none⟩
    ∧ sendMessageStart " hi " = ⟨[⟨Role.user, "hi"⟩], true, some "hi"⟩ := by
  constructor
  · exact (blank_send_advisory "   ").1 (by decide)
  · rw [(blank_send_advisory " hi ").2 (by decide)]
    decide

/-- C3 (code bug evidence): the 60 s deadline aborts the fetch with an
AbortError, but the catch classifier only recognises a timeout through the
word timeout in the message or the name TimeoutError, neither of which an
AbortController abort carries; so the appended assistant message is the
generic error echo, not the timeout-specific text, although the loading
placeholder is removed and exactly one assistant message is appended. -/
theorem timeout_abort_misclassified :
    ∀ apiUrl : String,
      processQueryOutcome apiUrl (QueryOutcome.thrown abortTimeoutError)
        = ⟨true, [⟨Role.assistant,
            "Sorry, I encountered an error: signal is aborted without reason"⟩]⟩
      ∧ errorDisplayMessage apiUrl abortTimeoutError ≠ timeoutDisplayMessage
      ∧ (processQueryOutcome apiUrl (QueryOutcome.thrown abortTimeoutError)).appended.length = 1
      ∧ (processQueryOutcome apiUrl (QueryOutcome.thrown abortTimeoutError)).loadingRemoved
          = true := by
  intro apiUrl
  have hmsg : errorDisplayMessage apiUrl abortTimeoutError
      = "signal is aborted without reason" := rfl
  refine ⟨rfl, ?_, rfl, rfl⟩
  rw [hmsg]
  decide

/-- C4: on a delivered response with no error field, an answer containing any
personal-information field label is replaced wholesale by the fixed refusal
text, and an answer containing none of the labels is rendered unchanged. -/
theorem personal_info_refusal :
    ∀ r : QueryResponse,
      jsTruthy r.error = false →
      ((∃ p ∈ personalInfoLabels,
          containsCI (jsOrString r.answer "No answer provided") p = true) →
        deliveredMessageText r = refusalMessage)
      ∧ ((∀ p ∈ personalInfoLabels,
          containsCI (jsOrString r.answer "No answer provided") p = false) →
        deliveredMessageText r = jsOrString r.answer "No answer provided") := by
  intro r herr
  have hfalse : ¬ (jsTruthy r.error = true) := by
    rw [herr]; exact Bool.false_ne_true
  constructor
  · rintro ⟨p, hp, hc⟩
    simp only [deliveredMessageText, if_neg hfalse]
    rw [if_pos]
    exact List.any_eq_true.mpr ⟨p, hp, hc⟩
  · intro hall
    simp only [deliveredMessageText, if_neg hfalse]
    rw [if_neg]
    intro hcontra
    obtain ⟨p, hp, hc⟩ := List.any_eq_true.mp hcontra
    exact Bool.false_ne_true ((hall p hp) ▸ hc)

/-- C4 witness: an answer carrying the Full Name and Email Address labels is
replaced by the refusal text exactly; an answer with no label is unchanged. -/
theorem personal_info_refusal_witness :
    deliveredMessageText
        ⟨none, some "Full Name: John Doe, Email Address: jd AT example DOT com", []⟩
      = refusalMessage
    ∧ deliveredMessageText ⟨none, some "There are 42 consignments in total.", []⟩
      = "There are 42 consignments in total." := by
  constructor
  · exact (personal_info_refusal
      ⟨none, some "Full Name: John Doe, Email Address: jd AT example DOT com", []⟩
      (by decide)).1 ⟨"Full Name", by decide, by decide⟩
  · exact (personal_info_refusal
      ⟨none, some "There are 42 consignments in total.", []⟩ (by decide)).2 (by decide)

theorem normalizedQuery_length (q : String) :
    (normalizedQuery q).length = (jsTrim q).length := by
  show ((jsTrim q).data.map Char.toLower).length = (jsTrim q).data.length
  exact List.length_map _ _

/-- C7 (amended): the resolver only proceeds for inputs whose trimmed form has
at least 2 characters; an input whose trimmed form has fewer than 2 characters
(so in particular any single-character input, not only blank ones) resolves to
hide with no lookup at all.  With 2 or more trimmed characters, a local
keyword hit is shown directly and otherwise the remote lookup is attempted. -/
theorem resolver_threshold :
    ∀ (q : String) (oracle : String → RemoteOutcome),
      ((normalizedQuery q).length < 2 →
        handleAutocomplete q oracle = ⟨AutoResult.hideSurface, false, false⟩)
      ∧ (2 ≤ (normalizedQuery q).length →
          (localSuggestionsFor (normalizedQuery q) (lastWordOf (normalizedQuery q))
              (splitWs (normalizedQuery q)) ≠ [] →
            (handleAutocomplete q oracle).result
              = AutoResult.showItems
                  ((localSuggestionsFor (normalizedQuery q) (lastWordOf (normalizedQuery q))
                    (splitWs (normalizedQuery q))).take 5) (jsTrim q))
          ∧ (localSuggestionsFor (normalizedQuery q) (lastWordOf (normalizedQuery q))
              (splitWs (normalizedQuery q)) = [] →
            (handleAutocomplete q oracle).remoteAttempted = true)) := by
  intro q oracle
  have hlen := normalizedQuery_length q
  have hl : lastWordOf (normalizedQuery q) = (splitWs (normalizedQuery q)).getLastD "" := rfl
  refine ⟨?_, ?_⟩
  · intro h2
    simp only [handleAutocomplete]
    by_cases h1 : (jsTrim q).length < 1
    · rw [if_pos h1]
    · rw [if_neg h1, if_pos (by omega)]
  · intro h2
    constructor
    · intro hloc
      rw [hl] at hloc
      simp only [handleAutocomplete]
      rw [if_neg (by omega), if_neg (by omega), if_pos hloc]
      rfl
    · intro hloc
      rw [hl] at hloc
      simp only [handleAutocomplete]
      rw [if_neg (by omega), if_neg (by omega), if_neg (fun hc => hc hloc)]
      repeat' split
      all_goals rfl

/-- C7 counterexample: the single-character input a has one trimmed character
and the oracle would answer with a suggestion, yet the resolver hides the
surface without attempting any lookup, so 1 trimmed character does not make it
proceed. -/
theorem resolver_threshold_counterexample :
    handleAutocomplete "a" c7Oracle = ⟨AutoResult.hideSurface, false, false⟩
    ∧ 1 ≤ (jsTrim "a").length
    ∧ c7Oracle (normalizedQuery "a")
        = RemoteOutcome.success (some ["How many consignments are there in total?"]) := by
  refine ⟨by decide, by decide, by decide⟩

/-- C7 witness: the threshold theorem applied at the 1-character input a and
at the keyword input how. -/
theorem resolver_threshold_witness :
    handleAutocomplete "a" c7Oracle = ⟨AutoResult.hideSurface, false, false⟩
    ∧ (handleAutocomplete "how" c7Oracle).result
        = AutoResult.showItems
            [ "How many consignments are there in total?"
            , "How many records are present in the file?"
            , "How many unique customers are represented?"
            , "How many source locations are there?" ] "how" := by
  constructor
  · exact (resolver_threshold "a" c7Oracle).1 (by decide)
  · rw [((resolver_threshold "how" c7Oracle).2 (by decide)).1 (by decide)]
    decide

/-- C5: the last-word fallback request is issued exactly when the full-query
remote request was made and returned a non-2xx response, the last word
differs from the full normalized query, and the last word has at least 2
characters; and whenever the fallback was issued but did not yield a
non-empty suggestions array, the autocomplete surface is hidden. -/
theorem fallback_exactly_when :
    ∀ (q : String) (oracle : String → RemoteOutcome),
      ((handleAutocomplete q oracle).fallbackAttempted = true ↔
        ((handleAutocomplete q oracle).remoteAttempted = true
          ∧ oracle (normalizedQuery q) = RemoteOutcome.httpError
          ∧ lastWordOf (normalizedQuery q) ≠ normalizedQuery q
          ∧ 2 ≤ (lastWordOf (normalizedQuery q)).length))
      ∧ ((handleAutocomplete q oracle).fallbackAttempted = true →
          hasNonEmptySuggestions (oracle (lastWordOf (normalizedQuery q))) = false →
          (handleAutocomplete q oracle).result = AutoResult.hideSurface) := by
  intro q oracle
  have hl : lastWordOf (normalizedQuery q) = (splitWs (normalizedQuery q)).getLastD "" := rfl
  rw [hl]
  simp only [handleAutocomplete]
  by_cases h1 : (jsTrim q).length < 1
  · rw [if_pos h1]; simp
  rw [if_neg h1]
  by_cases h2 : (normalizedQuery q).length < 2
  · rw [if_pos h2]; simp
  rw [if_neg h2]
  by_cases h3 : localSuggestionsFor (normalizedQuery q)
      ((splitWs (normalizedQuery q)).getLastD "") (splitWs (normalizedQuery q)) ≠ []
  · rw [if_pos h3]; simp
  rw [if_neg h3]
  cases horc : oracle (normalizedQuery q) with
  | success sugg =>
      cases sugg with
      | none => simp
      | some l =>
          by_cases h4 : l ≠ []
          · dsimp only; rw [if_pos h4]; simp
          · dsimp only; rw [if_neg h4]; simp
  | netError => simp
  | httpError =>
      dsimp only
      by_cases h5 : 2 ≤ ((splitWs (normalizedQuery q)).getLastD "").length
          ∧ (splitWs (normalizedQuery q)).getLastD "" ≠ normalizedQuery q
      · rw [if_pos h5]
        cases horc2 : oracle ((splitWs (normalizedQuery q)).getLastD "") with
        | success sugg =>
            cases sugg with
            | none =>
                simp [hasNonEmptySuggestions]
                exact ⟨by simpa using h5.2, by simpa using h5.1⟩
            | some l =>
                by_cases h6 : l ≠ []
                · dsimp only; rw [if_pos h6]
                  simp [hasNonEmptySuggestions, h6]
                  exact ⟨by simpa using h5.2, by simpa using h5.1⟩
                · dsimp only; rw [if_neg h6]
                  simp [hasNonEmptySuggestions]
                  exact ⟨by simpa using h5.2, by simpa using h5.1⟩
        | httpError =>
            simp [hasNonEmptySuggestions]
            exact ⟨by simpa using h5.2, by simpa using h5.1⟩
        | netError =>
            simp [hasNonEmptySuggestions]
            exact ⟨by simpa using h5.2, by simpa using h5.1⟩
      · rw [if_neg h5]
        refine ⟨?_, ?_⟩
        · constructor
          · intro hfalse
            exact absurd hfalse (by simp)
          · rintro ⟨-, -, hne, hlenw⟩
            exact absurd ⟨hlenw, hne⟩ h5
        · intro hfalse
          exact absurd hfalse (by simp)

/-- C5 witness: a query whose full-query request returns non-2xx and whose
2-character last word differs from it triggers the fallback; the fallback
returning an empty array leaves the surface hidden. -/
theorem fallback_exactly_when_witness :
    (handleAutocomplete "zzzz aa" c5Oracle).fallbackAttempted = true
    ∧ (handleAutocomplete "zzzz aa" c5Oracle).result = AutoResult.hideSurface := by
  have h := fallback_exactly_when "zzzz aa" c5Oracle
  have hfb : (handleAutocomplete "zzzz aa" c5Oracle).fallbackAttempted = true :=
    h.1.mpr (by refine ⟨by decide, by decide, by decide, by decide⟩)
  exact ⟨hfb, h.2 hfb (by decide)⟩

/-- C6: when the full-query remote lookup succeeds with a non-empty array,
the displayed list is the relevance-filtered entries capped to 5, or the
unfiltered first 5 server entries when the filter leaves nothing. -/
theorem remote_filter_cap :
    ∀ (q : String) (oracle : String → RemoteOutcome) (l : List String),
      2 ≤ (normalizedQuery q).length →
      localSuggestionsFor (normalizedQuery q) (lastWordOf (normalizedQuery q))
          (splitWs (normalizedQuery q)) = [] →
      oracle (normalizedQuery q) = RemoteOutcome.success (some l) →
      l ≠ [] →
      ∃ d, (handleAutocomplete q oracle).result = AutoResult.showItems d (jsTrim q)
        ∧ d.length ≤ 5
        ∧ (l.filter (relevantTo (normalizedQuery q)) ≠ [] →
            d = (l.filter (relevantTo (normalizedQuery q))).take 5)
        ∧ (l.filter (relevantTo (normalizedQuery q)) = [] → d = l.take 5)
        ∧ (handleAutocomplete q oracle).fallbackAttempted = false := by
  intro q oracle l h2 hloc horc hne
  have hlen := normalizedQuery_length q
  have hl : lastWordOf (normalizedQuery q) = (splitWs (normalizedQuery q)).getLastD "" := rfl
  rw [hl] at hloc
  simp only [handleAutocomplete]
  rw [if_neg (by omega), if_neg (by omega), if_neg (fun hc => hc hloc), horc]
  dsimp only
  rw [if_pos hne]
  refine ⟨_, rfl, ?_, ?_, ?_, rfl⟩
  · simp only [List.length_take]
    exact Nat.min_le_left _ _
  · intro hf
    rw [if_pos hf]
  · intro hf
    rw [if_neg (fun hc => hc hf)]

/-- C6 witness: a successful full-query lookup with one relevant and one
irrelevant entry displays exactly the relevant entry. -/
theorem remote_filter_cap_witness :
    (handleAutocomplete "zzzz" c6Oracle).result
      = AutoResult.showItems ["contains zzzz here"] "zzzz" := by
  obtain ⟨d, hres, hlen5, hfil, hnofil, hfb⟩ :=
    remote_filter_cap "zzzz" c6Oracle ["contains zzzz here", "unrelated text"]
      (by decide) (by decide) rfl (by decide)
  rw [hres, hfil (by decide)]
  decide

@[simp] theorem inputEventOp_inputValue (st : CoordState) (v : String) :
    (inputEventOp st v).inputValue = v := by
  simp only [inputEventOp]
  split <;> simp

@[simp] theorem inputEventOp_usedSuggestions (st : CoordState) (v : String) :
    (inputEventOp st v).usedSuggestions = st.usedSuggestions := by
  simp only [inputEventOp]
  split <;> simp

@[simp] theorem inputEventOp_sentQueries (st : CoordState) (v : String) :
    (inputEventOp st v).sentQueries = st.sentQueries := by
  simp only [inputEventOp]
  split <;> simp

/-- C8 (amended): selecting an autocomplete item at a valid index (reached by
click, Enter or Tab) puts exactly that item text into the input, hides the
autocomplete dropdown and cancels its pending timer, returns focus to the
input and sends nothing; but it leaves UsedSuggestions unchanged — the
selection is not recorded there (only chip clicks record). -/
theorem autocomplete_selection :
    ∀ (st : CoordState) (i : Int),
      0 ≤ i ∧ i < st.autocompleteItems.length →
      (selectAutocompleteItemOp st i).inputValue = st.autocompleteItems.getD i.toNat ""
      ∧ (selectAutocompleteItemOp st i).autoVisible = false
      ∧ (selectAutocompleteItemOp st i).autocompleteTimeout = false
      ∧ (selectAutocompleteItemOp st i).focused = true
      ∧ (selectAutocompleteItemOp st i).sentQueries = st.sentQueries
      ∧ (selectAutocompleteItemOp st i).usedSuggestions = st.usedSuggestions := by
  intro st i h
  simp only [selectAutocompleteItemOp, if_pos h]
  exact ⟨by simp [setInputValueOp], by simp, by simp, by trivial,
    by simp [setInputValueOp], by simp [setInputValueOp]⟩

/-- C8 counterexample: selecting the only autocomplete item places its text in
the input yet records nothing in UsedSuggestions, so the selected text is not
in the used set afterwards. -/
theorem autocomplete_selection_counterexample :
    (selectAutocompleteItemOp
        { initCoordState with
            autocompleteItems := ["How many records are present in the file?"] } 0).inputValue
      = "How many records are present in the file?"
    ∧ (selectAutocompleteItemOp
        { initCoordState with
            autocompleteItems := ["How many records are present in the file?"] } 0).usedSuggestions
      = [] := by
  refine ⟨by decide, by decide⟩

/-- C8 witness: the amended selection theorem applied at a concrete state. -/
theorem autocomplete_selection_witness :
    (selectAutocompleteItemOp
        { initCoordState with autocompleteItems := ["What is the total weight?"] } 0).inputValue
      = "What is the total weight?"
    ∧ (selectAutocompleteItemOp
        { initCoordState with autocompleteItems := ["What is the total weight?"] } 0).autoVisible
      = false
    ∧ (selectAutocompleteItemOp
        { initCoordState with autocompleteItems := ["What is the total weight?"] } 0).sentQueries
      = [] := by
  have h := autocomplete_selection
    { initCoordState with autocompleteItems := ["What is the total weight?"] } 0
    (by decide)
  exact ⟨h.1, h.2.1, h.2.2.2.2.1⟩

end Chatbot
